import Mathlib

/-!
Shallow embedding of the OPC UA client orchestration layer of
`databricks-industrial-automation-suite`, for checking the repository's
natural-language specification against the code.

The embedding follows `src/databricks_industrial_automation_suite/integrations/opcua.py`
(class `OPCUAClient`).  The external `asyncua` transport is abstracted: each
client method returns, besides the updated local client state, the ordered
list of transport calls it issues.  Values observed from nodes are modelled
as the strings Python would interpolate into the SSE messages.
-/

/-- One round trip (or transport-object mutation) issued against the external
`asyncua` transport by the client code. -/
inductive TransportCall where
  | setSecurityString (s : String)
  | setUser (u : String)
  | setPassword (p : String)
  | connect
  | disconnect
  | subscriptionDelete (h : Nat)
  | getEndpoints
  | readValue (node : String)
  | createSubscription (intervalMs : Nat)
  | subscribeDataChange (h : Nat) (node : String)
  deriving DecidableEq, Repr

/-- The mutable instance state of `OPCUAClient` (`__init__`, opcua.py lines 21-55):
configuration fields plus `subscription`, `subscribed_node`, `latest_value` and
the `value_updated` asyncio.Event (modelled as a Bool flag).  The subscription
object is modelled by an opaque numeric handle. -/
structure ClientState where
  server_url : String
  security_policy : String
  message_security_mode : String
  certificate_path : Option String
  private_key_path : Option String
  username : Option String
  password : Option String
  subscription : Option Nat
  subscribed_node : Option String
  latest_value : Option String
  value_updated : Bool
  deriving DecidableEq, Repr

/-- Python truthiness of an `Optional[str]` field: `None` and `""` are falsy. -/
def truthy : Option String → Bool
  | none => false
  | some s => s != ""

/-- Python `str()` of an `Optional` value as interpolated by an f-string. -/
def pyStr : Option String → String
  | none => "None"
  | some s => s

/-- `OPCUAClient.__init__` (opcua.py lines 21-55): stores the configuration and
initialises the subscription/value fields; performs no validation and cannot
fail. -/
def OPCUAClient_init (server_url : String) (security_policy : String)
    (message_security_mode : String) (certificate_path : Option String)
    (private_key_path : Option String) (username : Option String)
    (password : Option String) : ClientState :=
  { server_url := server_url
    security_policy := security_policy
    message_security_mode := message_security_mode
    certificate_path := certificate_path
    private_key_path := private_key_path
    username := username
    password := password
    subscription := none
    subscribed_node := none
    latest_value := none
    value_updated := false }

/-- The security string assembled by `OPCUAClient.connect` (opcua.py lines 64-67):
`"{policy},{mode}"`, with `",{cert},{key}"` appended only when both paths are
truthy. -/
def securityString (c : ClientState) : String :=
  let base := c.security_policy ++ "," ++ c.message_security_mode
  if truthy c.certificate_path && truthy c.private_key_path then
    base ++ "," ++ pyStr c.certificate_path ++ "," ++ pyStr c.private_key_path
  else base

/-- `OPCUAClient.connect` (opcua.py lines 57-75): optionally sets the security
string (when the policy is not the literal `"None"`), optionally sets
credentials, then unconditionally issues the transport connect.  No lifecycle
state is consulted or recorded, and the method raises no error of its own. -/
def connect (c : ClientState) : ClientState × List TransportCall :=
  let sec :=
    if c.security_policy != "None" then [TransportCall.setSecurityString (securityString c)]
    else []
  let creds :=
    if truthy c.username && truthy c.password then
      [TransportCall.setUser (pyStr c.username), TransportCall.setPassword (pyStr c.password)]
    else []
  (c, sec ++ creds ++ [TransportCall.connect])

/-- `OPCUAClient.disconnect` (opcua.py lines 77-86): deletes the tracked
subscription if one is set (the field itself is never cleared), disconnects the
transport, then resets `latest_value` and clears the `value_updated` event. -/
def disconnect (c : ClientState) : ClientState × List TransportCall :=
  let dels :=
    match c.subscription with
    | some h => [TransportCall.subscriptionDelete h]
    | none => []
  ({ c with latest_value := none, value_updated := false },
   dels ++ [TransportCall.disconnect])

/-- `OPCUAClient.subscribe_to_node` (opcua.py lines 131-147): reads the node's
current value, creates a subscription (interval 1000 ms) and subscribes to the
node's data changes.  `readVal` is the value returned by the transport's read
and `newHandle` the handle of the subscription the transport creates; the
single `subscription`/`subscribed_node`/`latest_value` slots are overwritten. -/
def subscribe_to_node (c : ClientState) (node_id : String) (readVal : String)
    (newHandle : Nat) : ClientState × List TransportCall :=
  ({ c with subscribed_node := some node_id
            latest_value := some readVal
            subscription := some newHandle },
   [TransportCall.readValue node_id, TransportCall.createSubscription 1000,
    TransportCall.subscribeDataChange newHandle node_id])

/-- `OPCUAClient._SubHandler.datachange_notification` (opcua.py lines 191-202):
overwrites the single shared `latest_value` with the new value and sets the
shared `value_updated` event.  The node argument is only logged; it is not
stored anywhere. -/
def datachange_notification (c : ClientState) (node : String) (val : String) :
    ClientState :=
  let _ := node
  { c with latest_value := some val, value_updated := true }

/-- `OPCUAClient.stream` (opcua.py lines 149-159), one consumer read round:
the generator waits on `value_updated`, yields one SSE message interpolating
the current `latest_value`, and clears the event.  This models the messages a
consumer obtains right now without blocking (none if the event is clear),
together with the state after reading them. -/
def stream (c : ClientState) : List String × ClientState :=
  if c.value_updated then
    (["data: " ++ pyStr c.latest_value ++ "\n\n"], { c with value_updated := false })
  else ([], c)

/-- `OPCUAClient.get_security_policies` (opcua.py lines 119-129): calls
`self.connect()`, fetches the endpoints, calls `self.disconnect()` and returns
the endpoints' security-policy URIs.  It operates on the same long-lived client
object, not on a throwaway one.  `endpoints` is the URI list the transport
returns. -/
def get_security_policies (c : ClientState) (endpoints : List String) :
    (List String × ClientState) × List TransportCall :=
  let (c1, t1) := connect c
  let (c2, t2) := disconnect c1
  ((endpoints, c2), t1 ++ [TransportCall.getEndpoints] ++ t2)

/-!
Recursive browsing (`browse_all` / `_browse_node_recursive`, opcua.py lines
88-97 and 161-181).  The transport-side address space is modelled as a tree of
nodes: for each node, `get_children` either raises (an `Except.error` carrying
the exception message) or returns the ordered child list, and
`read_browse_name` likewise either raises or returns the browse name.
-/

/-- A node of the (mock) transport address space: its id string, the outcome
of `node.get_children()` and the outcome of `node.read_browse_name()`. -/
inductive ASNode where
  | mk (id : String) (get_children : Except String (List ASNode))
      (read_browse_name : Except String String)

/-- The Python dict returned by `_browse_node_recursive`: each of the four
keys the code can emit is optional, so that the success shape and the error
shape are both expressible and the shape invariant is a real statement. -/
inductive RawResult where
  | mk (id : Option String) (browse_name : Option String)
      (children : Option (List RawResult)) (error : Option String)

/-- The error leaf `{"error": str(e)}` (opcua.py line 181). -/
def errLeaf (e : String) : RawResult :=
  RawResult.mk none none none (some e)

mutual
/-- `OPCUAClient._browse_node_recursive` (opcua.py lines 161-181): inside a
try block, fetch the children, then build the dict from the node id, the
browse name, and the recursively browsed children; any exception from
`get_children` or `read_browse_name` is caught and turned into an error
leaf.  The recursive calls themselves cannot raise. -/
def browse_node_recursive : ASNode → RawResult
  | ASNode.mk id gc rbn =>
    match gc with
    | Except.error e => errLeaf e
    | Except.ok cs =>
      match rbn with
      | Except.error e => errLeaf e
      | Except.ok name =>
        RawResult.mk (some id) (some name) (some (browseList cs)) none

/-- The list comprehension `[await self._browse_node_recursive(child) for child
in children]`, preserving the transport's child order. -/
def browseList : List ASNode → List RawResult
  | [] => []
  | c :: cs => browse_node_recursive c :: browseList cs
end

/-- `OPCUAClient.browse_all` (opcua.py lines 88-97): fetch the root's children
(NOT inside any try block, so a failure there propagates to the caller as the
exception), then browse each child recursively. -/
def browse_all (root : ASNode) : Except String (List RawResult) :=
  match root with
  | ASNode.mk _ gc _ =>
    match gc with
    | Except.error e => Except.error e
    | Except.ok cs => Except.ok (browseList cs)

/-- A mock transport address space with fixed structure: every node answers
`get_children` and `read_browse_name` successfully.  This is the "mock
transport with fixed structure" of the testable properties. -/
inductive MockTree where
  | mk (id : String) (browse_name : String) (children : List MockTree)

mutual
/-- View a mock tree as a transport address space in which every call
succeeds. -/
def toASNode : MockTree → ASNode
  | MockTree.mk id name cs => ASNode.mk id (Except.ok (toASList cs)) (Except.ok name)

/-- Children of a mock tree as address-space nodes, order preserved. -/
def toASList : List MockTree → List ASNode
  | [] => []
  | t :: ts => toASNode t :: toASList ts
end

mutual
/-- The success result tree a mock tree should browse to: same ids, names and
child order at every depth. -/
def mirror : MockTree → RawResult
  | MockTree.mk id name cs => RawResult.mk (some id) (some name) (some (mirrorList cs)) none

/-- Child-order-preserving mirror of a list of mock trees. -/
def mirrorList : List MockTree → List RawResult
  | [] => []
  | t :: ts => mirror t :: mirrorList ts
end

mutual
/-- A mock address space equal to `toASNode`, except that the single node at
position `path` (a list of child indices) raises `e`: on `read_browse_name`
when `mode` is true, on `get_children` when `mode` is false.  Every other node
still answers successfully. -/
def toASNodeFail : MockTree → List Nat → Bool → String → ASNode
  | MockTree.mk id name cs, [], mode, e =>
    if mode then ASNode.mk id (Except.ok (toASList cs)) (Except.error e)
    else ASNode.mk id (Except.error e) (Except.ok name)
  | MockTree.mk id name cs, i :: p, mode, e =>
    ASNode.mk id (Except.ok (toASListFail cs i p mode e)) (Except.ok name)

/-- Failure injection into the `i`-th element of a child list; siblings are
converted by the all-success `toASNode`. -/
def toASListFail : List MockTree → Nat → List Nat → Bool → String → List ASNode
  | [], _, _, _, _ => []
  | t :: ts, 0, p, mode, e => toASNodeFail t p mode e :: toASList ts
  | t :: ts, Nat.succ i, p, mode, e => toASNode t :: toASListFail ts i p mode e
end

mutual
/-- The expected browse output for `toASNodeFail`: the mirror tree with the
subtree at `path` replaced by the single error leaf `errLeaf e`, and every
node off the path mirrored intact. -/
def mirrorFail : MockTree → List Nat → String → RawResult
  | _, [], e => errLeaf e
  | MockTree.mk id name cs, i :: p, e =>
    RawResult.mk (some id) (some name) (some (mirrorListFail cs i p e)) none

/-- Expected output lists: the `i`-th entry degraded, siblings mirrored. -/
def mirrorListFail : List MockTree → Nat → List Nat → String → List RawResult
  | [], _, _, _ => []
  | t :: ts, 0, p, e => mirrorFail t p e :: mirrorList ts
  | t :: ts, Nat.succ i, p, e => mirror t :: mirrorListFail ts i p e
end

mutual
/-- The BrowseResult shape invariant: a dict is either a success node (id,
browse name and children all present, no error key, children themselves well
shaped) or an error leaf (error key only) — never both shapes at once. -/
def wellShapedB : RawResult → Bool
  | RawResult.mk (some _) (some _) (some cs) none => wellShapedList cs
  | RawResult.mk none none none (some _) => true
  | _ => false

/-- The shape invariant on every element of a result list. -/
def wellShapedList : List RawResult → Bool
  | [] => true
  | r :: rs => wellShapedB r && wellShapedList rs
end

/-!
Helper lemmas relating browsing of mock address spaces to their mirror trees.
-/

mutual
/-- Browsing an all-success mock node yields exactly its mirror: same id, same
name, children in the transport's order, at every depth. -/
theorem browse_toASNode_eq_mirror (t : MockTree) :
    browse_node_recursive (toASNode t) = mirror t := by
  match t with
  | MockTree.mk id name cs =>
    rw [toASNode, browse_node_recursive, mirror, browse_toASList_eq_mirrorList cs]

/-- List version of `browse_toASNode_eq_mirror`. -/
theorem browse_toASList_eq_mirrorList (ts : List MockTree) :
    browseList (toASList ts) = mirrorList ts := by
  match ts with
  | [] => rw [toASList, browseList, mirrorList]
  | t :: ts' =>
    rw [toASList, browseList, mirrorList, browse_toASNode_eq_mirror t,
        browse_toASList_eq_mirrorList ts']
end

mutual
/-- Browsing a mock space whose single node at `p` raises `e` yields the
mirror tree with exactly the subtree at `p` replaced by the error leaf. -/
theorem browse_toASNodeFail_eq_mirrorFail (t : MockTree) (p : List Nat) (mode : Bool)
    (e : String) :
    browse_node_recursive (toASNodeFail t p mode e) = mirrorFail t p e := by
  match t, p with
  | MockTree.mk id name cs, [] =>
    cases mode <;>
      rw [toASNodeFail] <;>
      simp only [if_true, if_false, Bool.false_eq_true, ite_false, ite_true] <;>
      rw [browse_node_recursive, mirrorFail]
  | MockTree.mk id name cs, i :: p' =>
    rw [toASNodeFail, browse_node_recursive, mirrorFail,
        browse_toASListFail_eq_mirrorListFail cs i p' mode e]

/-- List version of `browse_toASNodeFail_eq_mirrorFail`. -/
theorem browse_toASListFail_eq_mirrorListFail (ts : List MockTree) (i : Nat)
    (p : List Nat) (mode : Bool) (e : String) :
    browseList (toASListFail ts i p mode e) = mirrorListFail ts i p e := by
  match ts, i with
  | [], _ => rw [toASListFail, browseList, mirrorListFail]
  | t :: ts', 0 =>
    rw [toASListFail, browseList, mirrorListFail,
        browse_toASNodeFail_eq_mirrorFail t p mode e,
        browse_toASList_eq_mirrorList ts']
  | t :: ts', Nat.succ i' =>
    rw [toASListFail, browseList, mirrorListFail,
        browse_toASNode_eq_mirror t,
        browse_toASListFail_eq_mirrorListFail ts' i' p mode e]
end

mutual
/-- Every dict `_browse_node_recursive` produces is well shaped: a success
node or an error leaf, never a mixture. -/
theorem wellShapedB_browse (n : ASNode) :
    wellShapedB (browse_node_recursive n) = true := by
  match n with
  | ASNode.mk id gc rbn =>
    match gc with
    | Except.error e => rw [browse_node_recursive, errLeaf, wellShapedB]
    | Except.ok cs =>
      match rbn with
      | Except.error e => rw [browse_node_recursive, errLeaf, wellShapedB]
      | Except.ok name =>
        rw [browse_node_recursive, wellShapedB, wellShapedList_browse cs]

/-- List version of `wellShapedB_browse`. -/
theorem wellShapedList_browse (ns : List ASNode) :
    wellShapedList (browseList ns) = true := by
  match ns with
  | [] => rw [browseList, wellShapedList]
  | n :: ns' =>
    rw [browseList, wellShapedList, wellShapedB_browse n, wellShapedList_browse ns',
        Bool.and_self]
end

/-!
Claim theorems.
-/

/-- The client state reached in the claimed scenario for the stream: a fresh
client, `subscribe_to_node` for node A (`ns=2;i=5`, initial value 70.0,
subscription handle 1) and for node B (`ns=2;i=6`, initial value 1.00,
handle 2), then a data-change notification 72.1 for A followed immediately by
1.03 for B, before the consumer reads. -/
def c1ScenarioState : ClientState :=
  datachange_notification
    (datachange_notification
      ((subscribe_to_node
        ((subscribe_to_node
          (OPCUAClient_init "opc.tcp://plant" "None" "None" none none none none)
          "ns=2;i=5" "70.0" 1).1)
        "ns=2;i=6" "1.00" 2).1)
      "ns=2;i=5" "72.1")
    "ns=2;i=6" "1.03"

/-- Claim C1, code behaviour at the claimed scenario: after registering nodes
A and B, a notification for A followed immediately by one for B before the
consumer reads leaves only ONE event available via `stream`, the untagged SSE
message interpolating B's value; A's notification is silently overwritten and
no emitted message carries a node identifier (the handler never stores the
node).  This refutes, on the code, the claimed two distinct tagged events. -/
theorem C1_code_lossy_stream :
    (stream c1ScenarioState).1 = ["data: 1.03\n\n"] ∧
      (stream c1ScenarioState).1.length = 1 ∧
      (stream ((stream c1ScenarioState).2)).1 = [] := by
  decide

/-- Claim C2: per-branch error containment.  If exactly one node strictly
below the root (at child-index path `i :: p`) raises on `get_children`
(`mode = false`) or on `read_browse_name` (`mode = true`), `browse_all`
returns the full mirror tree in which exactly that node's subtree is the
single error leaf capturing the message, while every sibling subtree and all
ancestor structure are mirrored intact — the failure aborts nothing else. -/
theorem C2_per_branch_error_containment (id name : String) (cs : List MockTree)
    (i : Nat) (p : List Nat) (mode : Bool) (e : String) :
    browse_all (toASNodeFail (MockTree.mk id name cs) (i :: p) mode e) =
      Except.ok (mirrorListFail cs i p e) := by
  rw [toASNodeFail]
  simp only [browse_all]
  rw [browse_toASListFail_eq_mirrorListFail cs i p mode e]

/-- Claim C3: for every mock transport with fixed structure, browsing yields
the order-preserving mirror of the mock space — each node's children appear
in exactly the transport's order at every depth, and `browse_all` returns the
mirrored root children in order. -/
theorem C3_browse_order_preserved :
    (∀ t : MockTree, browse_node_recursive (toASNode t) = mirror t) ∧
    ∀ (id name : String) (cs : List MockTree),
      browse_all (toASNode (MockTree.mk id name cs)) = Except.ok (mirrorList cs) := by
  refine ⟨browse_toASNode_eq_mirror, fun id name cs => ?_⟩
  rw [toASNode]
  simp only [browse_all]
  rw [browse_toASList_eq_mirrorList cs]

/-- Claim C4 counterexample: a second `connect` without an intervening
disconnect does NOT fail with InvalidState and does NOT avoid the transport:
it issues the transport connect round trip again (the code has no lifecycle
state and no InvalidState error at all). -/
theorem C4_counterexample :
    let c0 := OPCUAClient_init "opc.tcp://127.0.0.1:4840/" "None" "None"
      none none none none
    let c1 := (connect c0).1
    (connect c1).2 = [TransportCall.connect] ∧
      TransportCall.connect ∈ (connect c1).2 := by
  decide

/-- Claim C4 amended: `connect` consults no lifecycle state: on every client
state it leaves the local state unchanged, always issues the transport connect
call, and a repeated call issues exactly the same transport calls again
instead of failing with InvalidState. -/
theorem C4_connect_unguarded (c : ClientState) :
    (connect c).1 = c ∧ TransportCall.connect ∈ (connect c).2 ∧
      (connect ((connect c).1)).2 = (connect c).2 := by
  refine ⟨rfl, ?_, rfl⟩
  simp [connect]

/-- Claim C5 counterexample: on a client holding a subscription, a second
`disconnect` is NOT a no-op: it re-issues the subscription delete and the
transport disconnect (the subscription field is never cleared and no
Disconnected state is recorded). -/
theorem C5_counterexample :
    let c := { OPCUAClient_init "opc.tcp://127.0.0.1:4840/" "None" "None"
                 none none none none with
               subscription := some 1, latest_value := some "42" }
    (disconnect ((disconnect c).1)).2 =
        [TransportCall.subscriptionDelete 1, TransportCall.disconnect] ∧
      (disconnect ((disconnect c).1)).2 ≠ [] := by
  decide

/-- Claim C5 amended: `disconnect` is unguarded rather than idempotent: it
leaves the subscription field set, and a second call issues exactly the same
teardown transport calls as the first (subscription delete, if one was ever
created, then transport disconnect) instead of being a no-op. -/
theorem C5_disconnect_repeats_teardown (c : ClientState) :
    ((disconnect c).1).subscription = c.subscription ∧
      (disconnect ((disconnect c).1)).2 = (disconnect c).2 :=
  ⟨rfl, rfl⟩

/-- Claim C6 counterexample: constructing a client with
`messageMode=SignAndEncrypt, policy=None` raises nothing, and connecting
silently skips all security setup and reaches the transport; with
`policy=Basic256Sha256` and a certificate but no private key, connecting sends
a security string without either path and reaches the transport.  No
InvalidSecurityConfig failure exists anywhere in the code. -/
theorem C6_counterexample :
    ((connect (OPCUAClient_init "opc.tcp://x" "None" "SignAndEncrypt"
        none none none none)).2 = [TransportCall.connect]) ∧
    ((connect (OPCUAClient_init "opc.tcp://x" "Basic256Sha256" "SignAndEncrypt"
        (some "certs/ec_client_cert.pem") none none none)).2 =
      [TransportCall.setSecurityString "Basic256Sha256,SignAndEncrypt",
       TransportCall.connect]) := by
  decide

/-- Claim C6 amended: the client performs no security-configuration
validation.  With the policy literal "None" the message mode is ignored and
connect issues only the transport connect; with a real policy and a
certificate path but no private key, the lone path is silently dropped from
the security string and the connection proceeds — neither combination fails. -/
theorem C6_no_security_validation (url mode : String) (cp pk : Option String)
    (cert : String) :
    (connect (OPCUAClient_init url "None" mode cp pk none none)).2 =
        [TransportCall.connect] ∧
      (connect (OPCUAClient_init url "Basic256Sha256" mode (some cert)
          none none none)).2 =
        [TransportCall.setSecurityString ("Basic256Sha256," ++ mode),
         TransportCall.connect] := by
  constructor
  · simp [connect, OPCUAClient_init, truthy]
  · simp [connect, OPCUAClient_init, securityString, truthy, pyStr]

/-- Claim C7 counterexample: with two subscriptions registered (handles 1
then 2; the transport data-change registration for handle 1 was really
issued), `disconnect` attempts to delete only handle 2 — handle 1 is
overwritten in the single tracking slot and never unregistered, so not every
active subscription is attempted. -/
theorem C7_counterexample :
    let c0 := OPCUAClient_init "opc.tcp://127.0.0.1:4840/" "None" "None"
      none none none none
    let c1 := (subscribe_to_node c0 "ns=2;i=5" "72.1" 1).1
    let c2 := (subscribe_to_node c1 "ns=2;i=6" "1.03" 2).1
    TransportCall.subscribeDataChange 1 "ns=2;i=5" ∈
        (subscribe_to_node c0 "ns=2;i=5" "72.1" 1).2 ∧
      (disconnect c2).2 =
        [TransportCall.subscriptionDelete 2, TransportCall.disconnect] ∧
      TransportCall.subscriptionDelete 1 ∉ (disconnect c2).2 := by
  decide

/-- Claim C7 amended: `disconnect` attempts to delete only the single most
recently created subscription, and does so before the transport teardown: the
client tracks one subscription slot, so after subscribing to A (handle `hA`)
and then B (handle `hB`), disconnect issues exactly the delete of `hB`
followed by the transport disconnect. -/
theorem C7_disconnect_deletes_only_latest (c : ClientState) (nA vA : String)
    (hA : Nat) (nB vB : String) (hB : Nat) :
    (disconnect ((subscribe_to_node ((subscribe_to_node c nA vA hA).1)
        nB vB hB).1)).2 =
      [TransportCall.subscriptionDelete hB, TransportCall.disconnect] :=
  rfl

/-- Claim C8: every tree `browse_all` returns is well shaped — each node is
either a success node (id, browse name and ordered children present, no error
key) or an error leaf (error message only), never both shapes at once. -/
theorem C8_browse_result_well_shaped (root : ASNode) (rs : List RawResult)
    (h : browse_all root = Except.ok rs) : wellShapedList rs = true := by
  match root with
  | ASNode.mk id gc rbn =>
    match gc with
    | Except.error e => simp [browse_all] at h
    | Except.ok cs =>
      simp only [browse_all, Except.ok.injEq] at h
      subst h
      exact wellShapedList_browse cs

/-- Claim C8 witness: the shape invariant evaluated on the concrete output of
`browse_all` for a one-child mock root. -/
theorem C8_witness :
    wellShapedList [RawResult.mk (some "i=85") (some "Objects") (some []) none] = true :=
  C8_browse_result_well_shaped
    (ASNode.mk "i=84"
      (Except.ok [ASNode.mk "i=85" (Except.ok []) (Except.ok "Objects")])
      (Except.ok "Root"))
    [RawResult.mk (some "i=85") (some "Objects") (some []) none]
    (by simp [browse_all, browseList, browse_node_recursive])

/-- Claim C9 counterexample: on a client with an active subscription (handle
1) and an observed latest value, `get_security_policies` does not leave the
long-lived session untouched: it deletes the subscription via the transport
and resets the latest observed value to None (it calls `self.connect` and
`self.disconnect` on the same client rather than a throwaway one). -/
theorem C9_counterexample :
    let c := { OPCUAClient_init "opc.tcp://127.0.0.1:4840/" "None" "None"
                 none none none none with
               subscription := some 1, subscribed_node := some "ns=2;i=5",
               latest_value := some "72.1", value_updated := true }
    let r := get_security_policies c ["http://opcfoundation.org/UA/SecurityPolicy#None"]
    ((r.1.2).latest_value ≠ some "72.1") ∧ ((r.1.2).latest_value = none) ∧
      TransportCall.subscriptionDelete 1 ∈ r.2 := by
  decide

/-- Claim C9 amended: `get_security_policies` reuses the long-lived client:
on any client state carrying a subscription handle and a latest value, it
issues the transport delete of that subscription, resets the latest observed
value to None and clears the update event, while returning the endpoints'
policy URIs. -/
theorem C9_get_security_policies_mutates_session (c : ClientState)
    (endpoints : List String) (v : String) (h : Nat) :
    let r := get_security_policies
      { c with subscription := some h, latest_value := some v,
               value_updated := true } endpoints
    ((r.1.2).latest_value = none) ∧ ((r.1.2).value_updated = false) ∧
      TransportCall.subscriptionDelete h ∈ r.2 ∧ r.1.1 = endpoints := by
  refine ⟨rfl, rfl, ?_, rfl⟩
  simp [get_security_policies, connect, disconnect]

/-- Claim C10: error containment does not cover the root: if fetching the
root's direct children raises, `browse_all` propagates the exception to the
caller instead of returning any tree (no error-leaf conversion at the root). -/
theorem C10_root_failure_propagates (id e : String) (rbn : Except String String) :
    browse_all (ASNode.mk id (Except.error e) rbn) = Except.error e :=
  rfl
